import Mathlib

/-!
Shallow embedding of the LBTW scene compositor (sky / cloud / room / room-fx /
rain layers) and verification of its keyframe-blend, crossfade, tiling,
scrolling, asset-preload and rain-resolution behaviour.

Each definition below is translated from one function of the JavaScript
source; the file/lines are noted next to each definition.  Machine floats are
modelled as rationals, JS values read from the loosely-typed story state as a
small inductive type, and promise rejection as `Except`.
-/

/-- Smoothstep easing `t*t*(3-2t)`, as in `SkyManager._smoothstep`,
`CloudLayer._smoothstep` and `SceneEngine._easeInOut`. -/
def smoothstep (t : ℚ) : ℚ := t * t * (3 - 2 * t)

/-- JS `Math.max(0, Math.min(1, q))`. -/
def clamp01 (q : ℚ) : ℚ := max 0 (min 1 q)

/-- A JavaScript value as read defensively from the story-state attribute
bag: `undefined`, `null`, a boolean or a string (other value kinds are not
produced by the story configs). -/
inductive JsVal where
  | undef
  | null
  | bool (b : Bool)
  | str (s : String)
deriving DecidableEq

/-- JS nullish coalescing `x ?? y`. -/
def nullish (x y : JsVal) : JsVal :=
  match x with
  | .undef => y
  | .null => y
  | v => v

/-- JS `String(v)` conversion for the modelled value kinds. -/
def jsToString : JsVal → String
  | .undef => "undefined"
  | .null => "null"
  | .bool true => "true"
  | .bool false => "false"
  | .str s => s

/-- The story-state attribute bag, with the fields the scene layers read:
`storyState.cloudProfile`, `storyState.state.cloudProfile`, `storyState.rain`,
`storyState.state.rain`, `storyState.roomLight`, `storyState.state.roomLight`.
A missing field is `JsVal.undef`. -/
structure StoryState where
  cloudProfile : JsVal := .undef
  stateCloudProfile : JsVal := .undef
  rain : JsVal := .undef
  stateRain : JsVal := .undef
  roomLight : JsVal := .undef
  stateRoomLight : JsVal := .undef
deriving DecidableEq

/- ------------------------------------------------------------------
   Asset preloading (claim C1).

   A texture is abstracted as a `Nat`; the runtime loader
   `PIXI.Assets.load` is abstracted as `loadT : String → Except String Nat`
   (`.error` models a rejected promise for a missing asset).
   ------------------------------------------------------------------ -/

/-- Convert an `Except` to an `Option`, dropping the error. -/
def exceptToOption {ε α : Type} : Except ε α → Option α
  | .ok a => some a
  | .error _ => none

/-- `RoomFxManager.load` preload, src/scene/roomFxManager.js lines 196-215:
each URL task wraps `PIXI.Assets.load` in try/catch (storing into
`_texturesByUrl` only on success) and the tasks are joined with
`Promise.allSettled`, so the whole preload always resolves and the resulting
mapping holds exactly the URLs that loaded. -/
def roomFxPreload (loadT : String → Except String Nat) (urls : List String) :
    Except String (List (String × Nat)) :=
  Except.ok (urls.filterMap fun u => (exceptToOption (loadT u)).map fun tex => (u, tex))

/-- `CloudManager.loadConfig` preload, src (cloudManager) lines 318-322:
`await Promise.all(urls.map(async u => { const tex = await PIXI.Assets.load(u);
this._texByUrl.set(u, tex); }))` — no try/catch, so the first rejected load
rejects the whole `loadConfig`.  (SkyManager.load, RainManager.load and
RoomManager.load preload with the same bare `Promise.all` pattern.) -/
def cloudPreload (loadT : String → Except String Nat) :
    List String → Except String (List (String × Nat))
  | [] => Except.ok []
  | u :: rest =>
    match loadT u with
    | .error e => Except.error e
    | .ok tex => (cloudPreload loadT rest).map fun m => (u, tex) :: m

/-- A loader on which `bad.png` fails (models one missing asset among the
requested URLs). -/
def badLoad : String → Except String Nat :=
  fun u => if u = "bad.png" then Except.error "missing" else Except.ok 7

/- ------------------------------------------------------------------
   Room-layer keyframe blend (claims C2 and C4).
   src/scene/roomManager.js, RoomManager._computeBlend (lines 149-184).
   ------------------------------------------------------------------ -/

/-- A room slot after `load` processing: `{key, startMin}`, `startMin` in
minutes of the day.  `RoomManager.load` sorts slots ascending by `startMin`. -/
structure Slot where
  key : String
  startMin : ℚ
deriving DecidableEq

/-- The result record `{keyA, keyB, t}` of `RoomManager._computeBlend`. -/
structure BlendResult where
  keyA : String
  keyB : String
  t : ℚ
deriving DecidableEq

/-- The index-selection loop of `_computeBlend` (lines 153-157):
`let idxA = 0; for(i){ if(tMin >= slots[i].startMin) idxA = i; else break; }`.
`i` is the index of the head of `rest`, `acc` the current `idxA`. -/
def pickIdxAAux (tMin : ℚ) : List Slot → Nat → Nat → Nat
  | [], _, acc => acc
  | s :: rest, i, acc =>
    if s.startMin ≤ tMin then pickIdxAAux tMin rest (i + 1) i else acc

/-- `idxA`: the last index of the initial run of slots with `startMin ≤ tMin`
(staying at 0 when the query precedes the first slot — the loop does not wrap). -/
def pickIdxA (slots : List Slot) (tMin : ℚ) : Nat :=
  pickIdxAAux tMin slots 0 0

/-- `RoomManager._computeBlend` on a preprocessed slot list and a clock value
`tMin` (minutes of day, `hours*60 + minutes + seconds/60`): selects
`idxA`/`idxB`, computes the span (wrapping at midnight when `idxB ≤ idxA`),
the elapsed time (plus 1440 when negative) and the clamped linear ratio. -/
def computeBlend (slots : List Slot) (tMin : ℚ) : BlendResult :=
  let idxA := pickIdxA slots tMin
  let idxB := (idxA + 1) % slots.length
  let a := slots.getD idxA ⟨"", 0⟩
  let b := slots.getD idxB ⟨"", 0⟩
  let span := if idxA < idxB then b.startMin - a.startMin
              else (1440 - a.startMin) + b.startMin
  let span := max 1 span
  let elapsed0 := tMin - a.startMin
  let elapsed := if elapsed0 < 0 then elapsed0 + 1440 else elapsed0
  ⟨a.key, b.key, clamp01 (elapsed / span)⟩

/- ------------------------------------------------------------------
   Sky-layer keyframe query.
   src/scene/skyManager.js, SkyManager._applyKeyframeBlend (lines 98-129):
   used here for the bracketing-pair selection and the linear ratio `t`
   (the sprite alphas then apply `smoothstep` to the clamped `t`).
   ------------------------------------------------------------------ -/

/-- A sky keyframe `{minute, key}` (the source stores a texture index; the
key stands for the referenced art). -/
structure SkyKf where
  minute : ℚ
  key : String
deriving DecidableEq

/-- The bracketing-pair selection and linear progress of
`SkyManager._applyKeyframeBlend`: `i1 = findIndex(minute > m)` wrapped to 0
when absent, `i0 = (i1 - 1 + n) % n`, span/elapsed shifted by 1440 on wrap,
returning `(lowerKey, upperKey, clamp01 t)`. -/
def skyQuery (kfs : List SkyKf) (m : ℚ) : String × String × ℚ :=
  let found := kfs.findIdx fun k => m < k.minute
  let i1 := if found = kfs.length then 0 else found
  let i0 := (i1 + kfs.length - 1) % kfs.length
  let k0 := kfs.getD i0 ⟨0, ""⟩
  let k1 := kfs.getD i1 ⟨0, ""⟩
  let m0 := k0.minute
  let m1 := if m0 < k1.minute then k1.minute else k1.minute + 1440
  let mm := if m0 ≤ m then m else m + 1440
  (k0.key, k1.key, clamp01 ((mm - m0) / (m1 - m0)))

/- ------------------------------------------------------------------
   Cloud tiling (claim C3).
   src (cloudManager), CloudLayer._applyTextureToGroup lines 240-242 and
   CloudLayer._desiredTileCount lines 206-211.
   ------------------------------------------------------------------ -/

/-- Tile step from `_applyTextureToGroup`:
`overlap = Math.min(_overlapPx, Math.max(0, tileW - 2));
 step = Math.max(2, tileW - overlap)`. -/
def cloudTileStep (tileW overlapPx : ℚ) : ℚ :=
  max 2 (tileW - min overlapPx (max 0 (tileW - 2)))

/-- `CloudLayer._desiredTileCount`: `0` when `step ≤ 0`, else
`Math.max(2, Math.ceil(bandW / step) + 2)`. -/
def desiredTileCount (bandW step : ℚ) : ℤ :=
  if step ≤ 0 then 0 else max 2 (⌈bandW / step⌉ + 2)

/- ------------------------------------------------------------------
   Cloud scroll-offset wraparound (claim C8).
   src (cloudManager), CloudLayer.update (lines 111-128).
   ------------------------------------------------------------------ -/

/-- The `while(this._x <= -step) this._x += step;` loop of `CloudLayer.update`,
with an explicit iteration budget (`fuel`); the budget used below strictly
exceeds the number of iterations the loop can perform, so the function agrees
with the loop. -/
def wrapIter (step : ℚ) : Nat → ℚ → ℚ
  | 0, x => x
  | n + 1, x => if x ≤ -step then wrapIter step n (x + step) else x

/-- An iteration budget sufficient for `wrapIter` to reach `x > -step`. -/
def wrapFuel (step x : ℚ) : ℕ :=
  (⌈(-step - x) / step⌉).toNat + 1

/-- The scroll-offset part of `CloudLayer.update`:
`this._x -= speed * dt; const step = Math.max(_step0, _step1);
 if(step > 0){ while(this._x <= -step) this._x += step; }`. -/
def cloudScrollAdvance (x speed dt step0 step1 : ℚ) : ℚ :=
  let x1 := x - speed * dt
  let step := max step0 step1
  if 0 < step then wrapIter step (wrapFuel step x1) x1 else x1

/- ------------------------------------------------------------------
   Room-light toggle crossfade (claims C5 and C6).
   src/scene/roomManager.js, RoomManager.update (lines 90-146), projected
   onto the light-fade state: `_currentLight`, `_prevLight`, `_lightFading`,
   `_lightFadeT`, `_lightFadeDur`, `_lightFadeSec` and the two render-group
   alphas `layer0.alpha` (current light) / `layer1.alpha` (previous light).
   `l1Updated` records whether this frame executed the
   `if(this._lightFading){ this._setSprite(this.l1A,...) ... }` branch,
   i.e. whether the previous-light group's sprites received texture updates.
   ------------------------------------------------------------------ -/

structure LightState where
  currentLight : String
  prevLight : String
  fading : Bool
  fadeT : ℚ
  fadeDur : ℚ
  fadeSec : ℚ
  layer0Alpha : ℚ
  layer1Alpha : ℚ
  l1Updated : Bool
deriving DecidableEq

/-- The desired light of `RoomManager.update` line 93-96:
`(storyState?.roomLight ?? storyState?.state?.roomLight ?? "off") === "on"
  ? "on" : "off"`. -/
def desiredLight (st : StoryState) : String :=
  if nullish st.roomLight (nullish st.stateRoomLight (.str "off")) = JsVal.str "on"
  then "on" else "off"

/-- One `RoomManager.update` frame, light-fade part (lines 93-145): retarget
on a light change (snap `layer1` to alpha 1, `layer0` to 0, restart the fade
at 0 with duration `_lightFadeSec`), then advance the fade
(`u = min(1, fadeT / max(0.01, fadeDur))`, `layer0.alpha = u`,
`layer1.alpha = 1 - u`, ending the fade once `u ≥ 1`); when not fading, keep
`layer0` at alpha 1 and skip the previous-light sprite updates. -/
def lightStep (st : StoryState) (dt : ℚ) (s : LightState) : LightState :=
  let desired := desiredLight st
  let s1 :=
    if desired ≠ s.currentLight then
      { s with prevLight := s.currentLight, currentLight := desired,
               fading := true, fadeT := 0, fadeDur := s.fadeSec,
               layer1Alpha := 1, layer0Alpha := 0 }
    else s
  if s1.fading then
    let fadeT := s1.fadeT + dt
    let u := min 1 (fadeT / max (1/100) s1.fadeDur)
    if 1 ≤ u then
      { s1 with fadeT := fadeT, l1Updated := true, fading := false,
                layer0Alpha := 1, layer1Alpha := 0 }
    else
      { s1 with fadeT := fadeT, l1Updated := true,
                layer0Alpha := u, layer1Alpha := 1 - u }
  else
    { s1 with layer0Alpha := 1, layer1Alpha := 0, l1Updated := false }

/-- Opacity with which the art variant for light `l` is shown: `layer0`
renders the current light, `layer1` the previous light. -/
def lightWeight (l : String) (s : LightState) : ℚ :=
  (if s.currentLight = l then s.layer0Alpha else 0) +
  (if s.prevLight = l then s.layer1Alpha else 0)

/-- A settled room-light state: light "off", no fade in progress, configured
`lightFadeSec = 0.5`. -/
def lightOffStable : LightState :=
  { currentLight := "off", prevLight := "off", fading := false, fadeT := 0,
    fadeDur := 1/2, fadeSec := 1/2, layer0Alpha := 1, layer1Alpha := 0,
    l1Updated := false }

/-- Story state requesting `roomLight = "on"`. -/
def storyLightOn : StoryState := { roomLight := .str "on" }

/-- Story state requesting `roomLight = "off"`. -/
def storyLightOff : StoryState := { roomLight := .str "off" }

/-- State mid-fade: 0.25 s of accumulated `dt` after toggling to "on". -/
def lightMid : LightState := lightStep storyLightOn (1/4) lightOffStable

/-- State once accumulated fade time reaches 0.5 s. -/
def lightDone : LightState := lightStep storyLightOn (1/4) lightMid

/-- Along a run of frames with per-frame deltas `dts` (and an unchanged
story state), no frame updates the previous-light group's sprites. -/
def noL1Updates (st : StoryState) : LightState → List ℚ → Prop
  | _, [] => True
  | s, dt :: rest =>
    (lightStep st dt s).l1Updated = false ∧ noL1Updates st (lightStep st dt s) rest

/- ------------------------------------------------------------------
   Profile-level cloud crossfade (claim C7).
   src/scene/sceneEngine.js: `_normalizeProfile` (144-147),
   `setInitialCloudProfile` (153-177), `_transitionCloudProfile` (179-210)
   and the cloud-crossfade portion of `update` (270-312), projected onto the
   engine state `_activeCloud`/`_currentCloudProfile`/`_targetCloudProfile`/
   `_xfading`/`_fadeT`/`_fadeDur` and the layer alphas
   `cloudLayerA.alpha` / `cloudLayerB.alpha`.
   ------------------------------------------------------------------ -/

structure CloudXfade where
  activeA : Bool
  currentProfile : String
  targetProfile : String
  xfading : Bool
  fadeT : ℚ
  fadeDur : ℚ
  alphaA : ℚ
  alphaB : ℚ
  hasSetInitial : Bool
deriving DecidableEq

/-- JS whitespace for `.trim()` (the ASCII kinds occurring in configs). -/
def isJsWhite (c : Char) : Bool :=
  c == ' ' || c == '\t' || c == '\n' || c == '\r'

/-- JS `String.prototype.trim()`: drop leading and trailing whitespace. -/
def jsTrim (s : String) : String :=
  ⟨((s.data.dropWhile isJsWhite).reverse.dropWhile isJsWhite).reverse⟩

/-- JS `String.prototype.toLowerCase()` on the ASCII range. -/
def lowerChar (c : Char) : Char :=
  if 65 ≤ c.toNat ∧ c.toNat ≤ 90 then Char.ofNat (c.toNat + 32) else c

/-- Lowercase every character. -/
def jsToLower (s : String) : String := ⟨s.data.map lowerChar⟩

/-- `SceneEngine._normalizeProfile`: empty / blank strings become "none",
others are trimmed. -/
def normalizeProfile (p : String) : String :=
  if jsTrim p = "" then "none" else jsTrim p

/-- `SceneEngine.setInitialCloudProfile`. -/
def setInitialCloudProfile (next : String) (s : CloudXfade) : CloudXfade :=
  { s with alphaA := 1, alphaB := 0, activeA := true,
           currentProfile := next, targetProfile := next,
           xfading := false, fadeT := 0, hasSetInitial := true }

/-- `SceneEngine._transitionCloudProfile`: first call routes to
`setInitialCloudProfile`; a request equal to the current target is ignored;
otherwise the back layer is prepared at alpha 0, the front snapped to 1 and
a 60 s crossfade started. -/
def transitionCloudProfile (p : String) (s : CloudXfade) : CloudXfade :=
  let next := normalizeProfile p
  if s.hasSetInitial = false then setInitialCloudProfile next s
  else if next = s.targetProfile then s
  else
    { s with targetProfile := next,
             alphaA := if s.activeA then 1 else 0,
             alphaB := if s.activeA then 0 else 1,
             xfading := true, fadeT := 0, fadeDur := 60 }

/-- The cloud-crossfade portion of one `SceneEngine.update` frame:
`_transitionCloudProfile(profile)`, then, while `_xfading`, advance `_fadeT`,
compute `t = clamp01(fadeT / max(0.001, fadeDur))`, apply the smoothstep-eased
complementary alphas, and on `t ≥ 1` swap the active slot and snap the
alphas to {1, 0}. -/
def engineCloudStep (p : String) (dt : ℚ) (s : CloudXfade) : CloudXfade :=
  let s1 := transitionCloudProfile p s
  if s1.xfading then
    let fadeT := s1.fadeT + dt
    let dur := max (1/1000) s1.fadeDur
    let t := clamp01 (fadeT / dur)
    let e := smoothstep t
    let s2 := { s1 with fadeT := fadeT,
                        alphaA := if s1.activeA then 1 - e else e,
                        alphaB := if s1.activeA then e else 1 - e }
    if 1 ≤ t then
      let active := !s2.activeA
      { s2 with xfading := false, activeA := active,
                currentProfile := s2.targetProfile,
                alphaA := if active then 1 else 0,
                alphaB := if active then 0 else 1 }
    else s2
  else s1

/-- A mid-crossfade engine state one second before the 60 s profile fade to
"overcast" completes. -/
def cloudXfadeSample : CloudXfade :=
  { activeA := true, currentProfile := "none", targetProfile := "overcast",
    xfading := true, fadeT := 59, fadeDur := 60, alphaA := 1/2, alphaB := 1/2,
    hasSetInitial := true }

/- ------------------------------------------------------------------
   Rain layer and lightning scheduler (claim C9).
   src/scene/rainManager.js: `update` (129-157), `_updateLightning` (161-193)
   and `_startLightningFlash` (195-227).  The two calls to `Math.random`-based
   helpers are modelled by explicit step inputs: `rand` stands for the value
   of `_rand(_lightningMinSec, _lightningMaxSec)` and `pick` for the pattern
   choice `Math.random() < 0.5`.
   ------------------------------------------------------------------ -/

/-- One `{a, d}` entry of a lightning flash pattern (overlay alpha and
duration in seconds). -/
structure FlashStep where
  a : ℚ
  d : ℚ
deriving DecidableEq

/-- The 2-flash burst pattern of `_startLightningFlash`. -/
def flashPattern2 : List FlashStep :=
  [⟨0, 1/50⟩, ⟨19/20, 1/20⟩, ⟨0, 3/50⟩, ⟨3/4, 1/25⟩, ⟨0, 1/10⟩]

/-- The 3-flash burst pattern of `_startLightningFlash`. -/
def flashPattern3 : List FlashStep :=
  [⟨0, 1/50⟩, ⟨19/20, 1/20⟩, ⟨0, 1/20⟩, ⟨13/20, 1/25⟩, ⟨0, 1/20⟩,
   ⟨17/20, 3/100⟩, ⟨0, 3/25⟩]

structure RainState where
  framesLen : Nat
  frameIndex : Nat
  frameT : ℚ
  frameDurs : List ℚ
  alpha : ℚ
  targetAlpha : ℚ
  fadeSec : ℚ
  lightningEnabled : Bool
  nextLightningIn : ℚ
  flashSeq : Option (List FlashStep)
  flashT : ℚ
  flashStep : Nat
  flashAlpha : ℚ
deriving DecidableEq

/-- `RainManager._startLightningFlash`: install one of the two burst
patterns and reset the sequence cursor. -/
def startLightningFlash (pick : Bool) (s : RainState) : RainState :=
  { s with flashSeq := some (if pick then flashPattern2 else flashPattern3),
           flashT := 0, flashStep := 0 }

/-- `RainManager._updateLightning`: while a flash sequence is active, advance
it (clearing it and rescheduling once past its last step); otherwise a new
flash may start only after the enable-flag and the 0.15 rain-visibility
guards, when the countdown `_nextLightningIn` runs out. -/
def updateLightning (dt rand : ℚ) (pick : Bool) (s : RainState) : RainState :=
  match s.flashSeq with
  | some seq =>
    let flashT := s.flashT + dt
    match seq.get? s.flashStep with
    | none =>
      { s with flashSeq := none, flashAlpha := 0, flashT := 0, flashStep := 0,
               nextLightningIn := rand }
    | some fs =>
      if fs.d ≤ flashT then
        { s with flashAlpha := fs.a, flashT := 0, flashStep := s.flashStep + 1 }
      else
        { s with flashAlpha := fs.a, flashT := flashT }
  | none =>
    if s.lightningEnabled = false then s
    else if s.alpha < 15/100 then s
    else
      let n := s.nextLightningIn - dt
      if n ≤ 0 then startLightningFlash pick { s with nextLightningIn := n }
      else { s with nextLightningIn := n }

/-- The alpha fade of `RainManager.update` lines 133-138: move `_alpha`
towards `_targetAlpha` at rate `speed = dt / _fadeSec`, clamping at the
target. -/
def rainFadeAlpha (dt : ℚ) (s : RainState) : ℚ :=
  if s.alpha < s.targetAlpha then min s.targetAlpha (s.alpha + dt / s.fadeSec)
  else if s.targetAlpha < s.alpha then max s.targetAlpha (s.alpha - dt / s.fadeSec)
  else s.alpha

/-- The frame-cycle advance of `RainManager.update` lines 146-153 (given the
already-faded `alpha`): while visible (`alpha > 0.001`) accumulate `_frameT`
and step `_frameIndex` cyclically past each frame duration; returns the new
`(frameT, frameIndex)`. -/
def rainFrameAdvance (dt alpha : ℚ) (s : RainState) : ℚ × Nat :=
  if 1/1000 < alpha then
    if s.frameDurs.getD s.frameIndex (12/100) ≤ s.frameT + dt then
      ((0 : ℚ), (s.frameIndex + 1) % s.framesLen)
    else (s.frameT + dt, s.frameIndex)
  else (s.frameT, s.frameIndex)

/-- One `RainManager.update` frame: a no-op without frames; otherwise fade
`_alpha` towards `_targetAlpha`, advance the rain frame cycle while visible,
then run the lightning scheduler. -/
def rainStep (dt rand : ℚ) (pick : Bool) (s : RainState) : RainState :=
  if s.framesLen = 0 then s
  else
    updateLightning dt rand pick
      { s with alpha := rainFadeAlpha dt s,
               frameT := (rainFrameAdvance dt (rainFadeAlpha dt s) s).1,
               frameIndex := (rainFrameAdvance dt (rainFadeAlpha dt s) s).2 }

/-- A raining, lightning-enabled state whose flash countdown is about to
expire. -/
def rainSample : RainState :=
  { framesLen := 1, frameIndex := 0, frameT := 0, frameDurs := [12/100],
    alpha := 1, targetAlpha := 1, fadeSec := 3, lightningEnabled := true,
    nextLightningIn := 0, flashSeq := none, flashT := 0, flashStep := 0,
    flashAlpha := 0 }

/- ------------------------------------------------------------------
   The derived rain boolean (claim C10).
   Three separate implementations:
   - SceneEngine._resolveRainEnabled (sceneEngine.js lines 242-253), with the
     profile resolved at the call site in `update` (lines 273-276);
   - RoomFxManager._resolveRainEnabled (roomFxManager.js lines 462-478);
   - CatActor._resolveRainEnabled (catActor source lines 904-920).
   ------------------------------------------------------------------ -/

/-- `SceneEngine._resolveRainEnabled(profile, storyState)`. -/
def sceneResolveRainEnabled (profile : JsVal) (st : StoryState) : Bool :=
  let override :=
    if st.rain ≠ JsVal.undef then st.rain
    else if st.stateRain ≠ JsVal.undef then st.stateRain
    else JsVal.undef
  if override = JsVal.bool true then true
  else if override = JsVal.bool false then false
  else jsToLower (jsTrim (jsToString profile)) == "overcast"

/-- The scene engine's rain boolean as computed in `SceneEngine.update`:
`profile = storyState?.cloudProfile ?? storyState?.state?.cloudProfile ??
"none"`, then `_resolveRainEnabled(profile, storyState)`. -/
def sceneRainEnabled (st : StoryState) : Bool :=
  sceneResolveRainEnabled
    (nullish st.cloudProfile (nullish st.stateCloudProfile (.str "none"))) st

/-- `RoomFxManager._resolveRainEnabled(storyState)`. -/
def roomFxResolveRainEnabled (st : StoryState) : Bool :=
  let profile := nullish st.cloudProfile (nullish st.stateCloudProfile (.str "none"))
  let override :=
    if st.rain ≠ JsVal.undef then st.rain
    else if st.stateRain ≠ JsVal.undef then st.stateRain
    else JsVal.undef
  if override = JsVal.bool true then true
  else if override = JsVal.bool false then false
  else jsToLower (jsTrim (jsToString profile)) == "overcast"

/-- `CatActor._resolveRainEnabled(storyState)`. -/
def catResolveRainEnabled (st : StoryState) : Bool :=
  let profile := nullish st.cloudProfile (nullish st.stateCloudProfile (.str "none"))
  let override :=
    if st.rain ≠ JsVal.undef then st.rain
    else if st.stateRain ≠ JsVal.undef then st.stateRain
    else JsVal.undef
  if override = JsVal.bool true then true
  else if override = JsVal.bool false then false
  else jsToLower (jsTrim (jsToString profile)) == "overcast"

/-- The rain boolean as the claim words it: the effective `rain` override
(`storyState.rain`, else `storyState.state.rain`, taking the first that is
not `undefined`) when that value is the boolean `true` or `false`, and
otherwise whether the resolved cloud-profile string, trimmed and lowercased,
equals "overcast". -/
def specRainEnabled (st : StoryState) : Bool :=
  let override :=
    if st.rain ≠ JsVal.undef then st.rain
    else if st.stateRain ≠ JsVal.undef then st.stateRain
    else JsVal.undef
  match override with
  | JsVal.bool b => b
  | _ =>
    jsToLower (jsTrim (jsToString (nullish st.cloudProfile
      (nullish st.stateCloudProfile (.str "none"))))) == "overcast"


/- ==================================================================
   Helper lemmas
   ================================================================== -/

theorem clamp01_of_bounds {q : ℚ} (h0 : 0 ≤ q) (h1 : q ≤ 1) : clamp01 q = q := by
  rw [clamp01, min_eq_right h1, max_eq_right h0]

theorem clamp01_of_one_le {q : ℚ} (h : 1 ≤ q) : clamp01 q = 1 := by
  rw [clamp01, min_eq_left h]
  norm_num

theorem desiredLight_on : desiredLight storyLightOn = "on" := by
  simp [desiredLight, storyLightOn, nullish]

theorem desiredLight_off : desiredLight storyLightOff = "off" := by
  have h : ¬ (JsVal.str "off") = JsVal.str "on" := by decide
  simp [desiredLight, storyLightOff, nullish, h]

theorem lightMid_eval :
    lightMid =
      { currentLight := "on", prevLight := "off", fading := true, fadeT := 1/4,
        fadeDur := 1/2, fadeSec := 1/2, layer0Alpha := 1/2, layer1Alpha := 1/2,
        l1Updated := true } := by
  have h1 : ¬ ("on" : String) = "off" := by decide
  rw [lightMid, lightStep, desiredLight_on]
  simp [lightOffStable, h1]
  norm_num

theorem lightDone_eval :
    lightDone =
      { currentLight := "on", prevLight := "off", fading := false, fadeT := 1/2,
        fadeDur := 1/2, fadeSec := 1/2, layer0Alpha := 1, layer1Alpha := 0,
        l1Updated := true } := by
  rw [lightDone, lightStep, desiredLight_on, lightMid_eval]
  norm_num

/-- When no light change is requested and no fade is in progress, an update
frame only re-asserts the resting alphas and performs no previous-light
sprite update. -/
theorem lightStep_stable (st : StoryState) (dt : ℚ) (s : LightState)
    (hd : desiredLight st = s.currentLight) (hf : s.fading = false) :
    lightStep st dt s =
      { s with layer0Alpha := 1, layer1Alpha := 0, l1Updated := false } := by
  simp [lightStep, hd, hf]

/-- Once settled, a run of update frames with an unchanged story state never
touches the previous-light group's sprites. -/
theorem noL1Updates_of_stable (st : StoryState) (s : LightState) (dts : List ℚ)
    (hd : desiredLight st = s.currentLight) (hf : s.fading = false) :
    noL1Updates st s dts := by
  induction dts generalizing s with
  | nil => trivial
  | cons dt rest ih =>
    rw [noL1Updates, lightStep_stable st dt s hd hf]
    exact ⟨rfl, ih _ hd hf⟩

/- ==================================================================
   Claim theorems
   ================================================================== -/

/-- C1, counterexample: preloading a URL set in which `bad.png` fails makes
`CloudManager.loadConfig`'s bare `Promise.all` preload reject, so an
exception from a missing asset does escape this layer's load — the claim as
stated (which asserts this for the cloud, sky, rain and room layers as well
as room-fx) is false on the code. -/
theorem cloudPreload_rejects_on_missing :
    cloudPreload badLoad ["a.png", "bad.png"] = Except.error "missing" := rfl

/-- C1 (amended): the room-fx layer's preload never rejects and every URL
that loads successfully is present in the resulting url→texture mapping;
the cloud, sky, rain and room layers, by contrast, preload with a bare
`Promise.all` and reject on the first missing asset. -/
theorem roomFxPreload_resolves (loadT : String → Except String Nat)
    (urls : List String) (u : String) (t : Nat)
    (hmem : u ∈ urls) (hok : loadT u = Except.ok t) :
    ∃ m, roomFxPreload loadT urls = Except.ok m ∧ (u, t) ∈ m := by
  refine ⟨_, rfl, ?_⟩
  rw [List.mem_filterMap]
  exact ⟨u, hmem, by rw [hok]; rfl⟩

/-- C1 witness: on the concrete two-URL set with one missing asset, the
room-fx preload resolves and keeps the URL that loaded. -/
theorem roomFxPreload_resolves_w :
    ("a.png" ∈ ["a.png", "bad.png"]) ∧ badLoad "a.png" = Except.ok 7 ∧
    ∃ m, roomFxPreload badLoad ["a.png", "bad.png"] = Except.ok m ∧
      ("a.png", 7) ∈ m :=
  ⟨by decide, rfl,
   roomFxPreload_resolves badLoad ["a.png", "bad.png"] "a.png" 7 (by decide) rfl⟩

/-- C2: at the claim's own scenario — room slots night at 20:00 and dawn at 05:00
(stored sorted as dawn(300), night(1200)) queried at 02:00 (tMin = 120) —
`RoomManager._computeBlend` returns lower = dawn, upper = night with `t`
clamped to 1, not the claimed lower = night, upper = dawn, t = 360/540:
because the selection loop keeps `idxA = 0` instead of wrapping to the last
keyframe when the query precedes the first slot.  `SkyManager`'s blend — which
the room manager's header comment says it mirrors ("Continuous keyframe blend
like Sky") — produces exactly the claimed bracketing and ratio 2/3 at the same
input. -/
theorem roomBlend_wrap_divergence :
    computeBlend [⟨"dawn", 300⟩, ⟨"night", 1200⟩] 120 = ⟨"dawn", "night", 1⟩ ∧
    skyQuery [⟨300, "dawn"⟩, ⟨1200, "night"⟩] 120 = ("night", "dawn", 2/3) := by
  constructor
  · norm_num [computeBlend, pickIdxA, pickIdxAAux, clamp01]
  · norm_num [skyQuery, clamp01, List.findIdx, List.findIdx.go]

/-- C3: for every tile width w > 0, overlap o ≥ 0 and viewport width v > 0,
the tile step is `max(2, w − min(o, max(0, w − 2)))`, it is positive, the
tile count is `max(2, ceil(v / step) + 2)`, and in particular w = 500,
o = 50, v = 1200 give step = 450 and tileCount = 5. -/
theorem tiling_step_and_count (w o v : ℚ) (hw : 0 < w) (ho : 0 ≤ o) (hv : 0 < v) :
    cloudTileStep w o = max 2 (w - min o (max 0 (w - 2))) ∧
    0 < cloudTileStep w o ∧
    desiredTileCount v (cloudTileStep w o) = max 2 (⌈v / cloudTileStep w o⌉ + 2) ∧
    cloudTileStep 500 50 = 450 ∧
    desiredTileCount 1200 (cloudTileStep 500 50) = 5 := by
  have h2 : (2:ℚ) ≤ cloudTileStep w o := le_max_left _ _
  have hpos : (0:ℚ) < cloudTileStep w o := lt_of_lt_of_le (by norm_num) h2
  have hstep : cloudTileStep 500 50 = 450 := by norm_num [cloudTileStep]
  refine ⟨rfl, hpos, ?_, hstep, ?_⟩
  · rw [desiredTileCount, if_neg (not_le.mpr hpos)]
  · rw [hstep]
    have h : ⌈(8:ℚ)/3⌉ = 3 := by rw [Int.ceil_eq_iff]; norm_num
    norm_num [desiredTileCount, h]

/-- C3 witness: the theorem instantiated at the concrete configuration
w = 500, o = 50, v = 1200. -/
theorem tiling_step_and_count_w :
    (0:ℚ) < 500 ∧ (0:ℚ) ≤ 50 ∧ (0:ℚ) < 1200 ∧
    cloudTileStep 500 50 = 450 ∧ desiredTileCount 1200 (cloudTileStep 500 50) = 5 :=
  ⟨by norm_num, by norm_num, by norm_num,
   (tiling_step_and_count 500 50 1200 (by norm_num) (by norm_num) (by norm_num)).2.2.2⟩

/-- C4, counterexample: a track with the single keyframe "day" at 00:00 queried
at minute 720 returns progress t = 1/2, not the claimed t = 0 (the span
degenerates to the full day, so `t = elapsed / 1440`). -/
theorem singleKeyframe_t_nonzero :
    (computeBlend [⟨"day", 0⟩] 720).t = 1/2 ∧ ((1:ℚ)/2 ≠ 0) := by
  constructor
  · norm_num [computeBlend, pickIdxA, pickIdxAAux, clamp01]
  · norm_num

/-- The selection loop on a one-slot track always yields index 0. -/
theorem pickIdxA_single (k : Slot) (m : ℚ) : pickIdxA [k] m = 0 := by
  rw [pickIdxA, pickIdxAAux]
  split <;> rfl

/-- C4 (amended): for a track with exactly one keyframe and any query minute
m in [0, 1440), `_computeBlend` returns lowerKey = upperKey = the sole
keyframe's key, and the progress is `elapsed / 1440` (the span degenerates to
the full day; the wrapped elapsed time when the query precedes the keyframe),
which is 0 only when the query hits the keyframe's minute exactly. -/
theorem singleKeyframe_blend (k : Slot) (m : ℚ)
    (hm0 : 0 ≤ m) (hm1 : m < 1440) (hs0 : 0 ≤ k.startMin) (hs1 : k.startMin < 1440) :
    (computeBlend [k] m).keyA = k.key ∧ (computeBlend [k] m).keyB = k.key ∧
    (computeBlend [k] m).t =
      (if m - k.startMin < 0 then m - k.startMin + 1440 else m - k.startMin) / 1440 := by
  have hspan : max (1:ℚ) ((1440 - k.startMin) + k.startMin) = 1440 := by
    rw [show (1440:ℚ) - k.startMin + k.startMin = 1440 by ring]
    norm_num
  simp only [computeBlend, pickIdxA_single, List.length_cons, List.length_nil,
    Nat.mod_self, List.getD, List.get?_cons_zero, Option.getD_some,
    lt_self_iff_false, if_false, hspan]
  refine ⟨trivial, trivial, ?_⟩
  by_cases h : m - k.startMin < 0
  · rw [if_pos h]
    exact clamp01_of_bounds (by linarith) (by rw [div_le_one (by norm_num)]; linarith)
  · rw [if_neg h]
    have h0 : 0 ≤ m - k.startMin := not_lt.mp h
    exact clamp01_of_bounds
      (div_nonneg h0 (by norm_num))
      (by rw [div_le_one (by norm_num)]; linarith)

/-- C4 witness: the amended theorem at the single keyframe "day" at 00:00
queried at minute 720, where the progress evaluates to 720/1440. -/
theorem singleKeyframe_blend_w :
    ((0:ℚ) ≤ 720 ∧ (720:ℚ) < 1440 ∧
     (0:ℚ) ≤ (Slot.mk "day" 0).startMin ∧ (Slot.mk "day" 0).startMin < 1440) ∧
    ((computeBlend [Slot.mk "day" 0] 720).keyA = (Slot.mk "day" 0).key ∧
     (computeBlend [Slot.mk "day" 0] 720).keyB = (Slot.mk "day" 0).key ∧
     (computeBlend [Slot.mk "day" 0] 720).t =
       (if (720:ℚ) - (Slot.mk "day" 0).startMin < 0
        then 720 - (Slot.mk "day" 0).startMin + 1440
        else 720 - (Slot.mk "day" 0).startMin) / 1440) :=
  ⟨⟨by norm_num, by norm_num, by norm_num, by norm_num⟩,
   singleKeyframe_blend (Slot.mk "day" 0) 720
     (by norm_num) (by norm_num) (by norm_num) (by norm_num)⟩

theorem lightRetarget_eval :
    lightStep storyLightOff 0 lightMid =
      { currentLight := "off", prevLight := "on", fading := true, fadeT := 0,
        fadeDur := 1/2, fadeSec := 1/2, layer0Alpha := 0, layer1Alpha := 1,
        l1Updated := true } := by
  have h2 : ¬ ("off" : String) = "on" := by decide
  rw [lightStep, desiredLight_off, lightMid_eval]
  simp [h2]

/-- C5, counterexample: a toggle back to "off" arriving mid-fade (while the
display is the 50/50 mixture of the two lights) snaps the display to the pure
previous target light — the "on" art goes from weight 1/2 to weight 1
instantly — rather than retargeting the `from` side to the mixture currently
being displayed, so the claim's "not a snap to either pure light state" is
false on the code. -/
theorem lightRetarget_snaps :
    lightWeight "on" lightMid = 1/2 ∧
    lightWeight "on" (lightStep storyLightOff 0 lightMid) = 1 ∧
    ((1:ℚ)/2 ≠ 1) := by
  have h2 : ¬ ("off" : String) = "on" := by decide
  refine ⟨?_, ?_, by norm_num⟩
  · rw [lightMid_eval]
    simp [lightWeight, h2]
  · rw [lightRetarget_eval]
    simp [lightWeight, h2]

/-- C5 (amended): a toggle request arriving while a crossfade is in progress
immediately retargets without queuing: the previous target becomes the `from`
side shown at full opacity (`layer1.alpha = 1`, `layer0.alpha = 0` — a snap to
the pure previous target light, not to the currently displayed mixture), the
new light becomes the target, and progress restarts at 0. -/
theorem lightRetarget_restarts (st : StoryState) (s : LightState)
    (hf : s.fading = true) (hd : desiredLight st ≠ s.currentLight) :
    (lightStep st 0 s).currentLight = desiredLight st ∧
    (lightStep st 0 s).prevLight = s.currentLight ∧
    (lightStep st 0 s).fading = true ∧
    (lightStep st 0 s).fadeT = 0 ∧
    (lightStep st 0 s).fadeDur = s.fadeSec ∧
    (lightStep st 0 s).layer0Alpha = 0 ∧
    (lightStep st 0 s).layer1Alpha = 1 := by
  simp [lightStep, hd]
  norm_num

/-- C5 witness: the amended theorem at the concrete mid-fade state
`lightMid` with a toggle back to "off". -/
theorem lightRetarget_restarts_w :
    lightMid.fading = true ∧ desiredLight storyLightOff ≠ lightMid.currentLight ∧
    ((lightStep storyLightOff 0 lightMid).currentLight = desiredLight storyLightOff ∧
     (lightStep storyLightOff 0 lightMid).prevLight = lightMid.currentLight ∧
     (lightStep storyLightOff 0 lightMid).fading = true ∧
     (lightStep storyLightOff 0 lightMid).fadeT = 0 ∧
     (lightStep storyLightOff 0 lightMid).fadeDur = lightMid.fadeSec ∧
     (lightStep storyLightOff 0 lightMid).layer0Alpha = 0 ∧
     (lightStep storyLightOff 0 lightMid).layer1Alpha = 1) :=
  ⟨by rw [lightMid_eval], by rw [desiredLight_off, lightMid_eval]; decide,
   lightRetarget_restarts storyLightOff lightMid (by rw [lightMid_eval])
     (by rw [desiredLight_off, lightMid_eval]; decide)⟩

/-- C6: toggling `roomLight` off→on from a stable state starts a fade of the
configured `lightFadeSec = 0.5`; one frame with dt = 0.25 s shows the linear
complementary group opacities 1/2 and 1/2; a further 0.25 s frame reaches
accumulated time 0.5 s, after which the current-light group has opacity 1,
the previous-light group opacity 0, and no later frame (with the story state
unchanged) updates the previous-light group's sprites. -/
theorem roomLight_toggle_fade :
    lightOffStable.fadeSec = 1/2 ∧
    lightMid.fading = true ∧ lightMid.fadeDur = lightOffStable.fadeSec ∧
    lightMid.layer0Alpha = 1/2 ∧ lightMid.layer1Alpha = 1/2 ∧
    lightDone.fadeT = 1/2 ∧
    lightDone.layer0Alpha = 1 ∧ lightDone.layer1Alpha = 0 ∧
    lightDone.fading = false ∧
    ∀ dts : List ℚ, noL1Updates storyLightOn lightDone dts := by
  refine ⟨rfl, by rw [lightMid_eval], by rw [lightMid_eval]; rfl,
    by rw [lightMid_eval], by rw [lightMid_eval],
    by rw [lightDone_eval], by rw [lightDone_eval], by rw [lightDone_eval],
    by rw [lightDone_eval], fun dts => ?_⟩
  exact noL1Updates_of_stable storyLightOn lightDone dts
    (by rw [desiredLight_on, lightDone_eval]) (by rw [lightDone_eval])

/-- When the engine has an initial cloud profile, the requested profile equals
the current target and no crossfade is running, an update frame leaves the
cloud-crossfade state untouched. -/
theorem engineCloudStep_stable (p : String) (dt : ℚ) (s : CloudXfade)
    (hi : s.hasSetInitial = true) (ht : normalizeProfile p = s.targetProfile)
    (hx : s.xfading = false) :
    engineCloudStep p dt s = s := by
  have htr : transitionCloudProfile p s = s := by
    simp [transitionCloudProfile, hi, ht]
  simp [engineCloudStep, htr, hx]

/-- A crossfade frame whose accumulated time reaches the duration completes
the transition: the active slot swaps and the alphas snap to {1, 0}. -/
theorem engineCloudStep_completes (p : String) (dt : ℚ) (s : CloudXfade)
    (hi : s.hasSetInitial = true) (ht : normalizeProfile p = s.targetProfile)
    (hx : s.xfading = true) (hdone : max (1/1000) s.fadeDur ≤ s.fadeT + dt) :
    engineCloudStep p dt s =
      { s with fadeT := s.fadeT + dt, xfading := false, activeA := !s.activeA,
               currentProfile := s.targetProfile,
               alphaA := if !s.activeA then 1 else 0,
               alphaB := if !s.activeA then 0 else 1 } := by
  have htr : transitionCloudProfile p s = s := by
    simp [transitionCloudProfile, hi, ht]
  have hdur : (0:ℚ) < max (1/1000) s.fadeDur :=
    lt_of_lt_of_le (by norm_num) (le_max_left _ _)
  have ht1 : clamp01 ((s.fadeT + dt) / max (1/1000) s.fadeDur) = 1 :=
    clamp01_of_one_le ((one_le_div hdur).mpr hdone)
  simp [engineCloudStep, htr, hx, ht1]
  rw [show (1000⁻¹ : ℚ) = 1/1000 by norm_num, ht1]

/-- C7: once a profile crossfade's progress reaches 1 — the frame that swaps
the active slot and snaps the layer opacities to {1, 0} — every further
update frame requesting the same target profile is the identity on the
cloud-crossfade state: the opacities stay exactly {1, 0} and no further slot
swap occurs. -/
theorem cloudXfade_boundary_idempotent (p : String) (dt : ℚ) (s : CloudXfade)
    (hi : s.hasSetInitial = true) (ht : normalizeProfile p = s.targetProfile)
    (hx : s.xfading = true) (hdone : max (1/1000) s.fadeDur ≤ s.fadeT + dt) :
    (engineCloudStep p dt s).xfading = false ∧
    (engineCloudStep p dt s).activeA = !s.activeA ∧
    (engineCloudStep p dt s).alphaA = (if !s.activeA then (1:ℚ) else 0) ∧
    (engineCloudStep p dt s).alphaB = (if !s.activeA then (0:ℚ) else 1) ∧
    ∀ dt2 : ℚ, engineCloudStep p dt2 (engineCloudStep p dt s) =
      engineCloudStep p dt s := by
  have hc := engineCloudStep_completes p dt s hi ht hx hdone
  refine ⟨by rw [hc], by rw [hc], by rw [hc], by rw [hc], fun dt2 => ?_⟩
  rw [hc]
  exact engineCloudStep_stable p dt2 _ hi ht rfl

/-- C7 witness: the theorem at a concrete 60 s crossfade to "overcast" one
second before completion, advanced by dt = 1 s and then again by dt = 5 s. -/
theorem cloudXfade_boundary_idempotent_w :
    cloudXfadeSample.hasSetInitial = true ∧
    normalizeProfile "overcast" = cloudXfadeSample.targetProfile ∧
    cloudXfadeSample.xfading = true ∧
    max (1/1000 : ℚ) cloudXfadeSample.fadeDur ≤ cloudXfadeSample.fadeT + 1 ∧
    (engineCloudStep "overcast" 1 cloudXfadeSample).xfading = false ∧
    engineCloudStep "overcast" 5 (engineCloudStep "overcast" 1 cloudXfadeSample) =
      engineCloudStep "overcast" 1 cloudXfadeSample := by
  have hd : max (1/1000 : ℚ) cloudXfadeSample.fadeDur ≤ cloudXfadeSample.fadeT + 1 := by
    rw [show cloudXfadeSample.fadeDur = 60 from rfl,
        show cloudXfadeSample.fadeT = 59 from rfl]
    rw [max_eq_right (by norm_num : (1/1000 : ℚ) ≤ 60)]
    norm_num
  have h := cloudXfade_boundary_idempotent "overcast" 1 cloudXfadeSample
    rfl (by decide) rfl hd
  exact ⟨rfl, by decide, rfl, hd, h.1, h.2.2.2.2 5⟩

/-- The wrap loop keeps a non-positive offset inside `(-step, 0]` whenever its
iteration budget `n` exceeds the number of `+= step` corrections needed. -/
theorem wrapIter_bounds (step : ℚ) (hstep : 0 < step) :
    ∀ (n : ℕ) (x : ℚ), x ≤ 0 → -step - x < n * step →
      -step < wrapIter step n x ∧ wrapIter step n x ≤ 0 := by
  intro n
  induction n with
  | zero =>
    intro x hx hlt
    rw [wrapIter]
    constructor
    · push_cast at hlt
      linarith
    · exact hx
  | succ n ih =>
    intro x hx hlt
    rw [wrapIter]
    split_ifs with h
    · refine ih (x + step) (by linarith) ?_
      push_cast at hlt ⊢
      linarith
    · exact ⟨lt_of_not_le (fun hle => h (by linarith)), hx⟩

/-- The budget `wrapFuel` is always sufficient. -/
theorem wrapFuel_sufficient (step x : ℚ) (hstep : 0 < step) :
    -step - x < (wrapFuel step x : ℚ) * step := by
  have h1 : (-step - x) / step ≤ ((⌈(-step - x) / step⌉ : ℤ) : ℚ) := Int.le_ceil _
  have h2 : ((⌈(-step - x) / step⌉ : ℤ) : ℚ) ≤ ((⌈(-step - x) / step⌉.toNat : ℕ) : ℚ) := by
    exact_mod_cast Int.self_le_toNat _
  have hq : (-step - x) / step < ((⌈(-step - x) / step⌉.toNat : ℕ) : ℚ) + 1 := by
    linarith
  have hmul := mul_lt_mul_of_pos_right hq hstep
  rw [div_mul_cancel₀ _ (ne_of_gt hstep)] at hmul
  rw [wrapFuel]
  push_cast at hmul ⊢
  linarith [hmul]

/-- C8: for every cloud-layer update with scroll speed ≥ 0,
dt ≥ 0 and a positive tile step (the larger of the two cached group steps),
a scroll offset in `(-step, 0]` stays in `(-step, 0]` after the update: the
accumulated offset is kept bounded by the modular wraparound, never growing
monotonically. -/
theorem scrollOffset_bounded (x speed dt step0 step1 : ℚ)
    (hsp : 0 ≤ speed) (hdt : 0 ≤ dt) (hstep : 0 < max step0 step1)
    (hlo : -max step0 step1 < x) (hhi : x ≤ 0) :
    -max step0 step1 < cloudScrollAdvance x speed dt step0 step1 ∧
    cloudScrollAdvance x speed dt step0 step1 ≤ 0 := by
  have hx1 : x - speed * dt ≤ 0 := by nlinarith [mul_nonneg hsp hdt]
  rw [cloudScrollAdvance]
  simp only [if_pos hstep]
  exact wrapIter_bounds (max step0 step1) hstep _ _ hx1
    (wrapFuel_sufficient (max step0 step1) (x - speed * dt) hstep)

/-- C8 witness: the theorem at offset 0 with speed 3, dt 1 and steps {3, 2}
(one wrap correction occurs, since the raw offset would be -3). -/
theorem scrollOffset_bounded_w :
    (0:ℚ) ≤ 3 ∧ (0:ℚ) ≤ 1 ∧ (0:ℚ) < max 3 2 ∧ -max (3:ℚ) 2 < 0 ∧ (0:ℚ) ≤ 0 ∧
    (-max (3:ℚ) 2 < cloudScrollAdvance 0 3 1 3 2 ∧
     cloudScrollAdvance 0 3 1 3 2 ≤ 0) := by
  have hm : max (3:ℚ) 2 = 3 := max_eq_left (by norm_num)
  refine ⟨by norm_num, by norm_num, by rw [hm]; norm_num, by rw [hm]; norm_num,
    le_refl 0, scrollOffset_bounded 0 3 1 3 2 (by norm_num) (by norm_num)
      (by rw [hm]; norm_num) (by rw [hm]; norm_num) (le_refl 0)⟩

/-- A new flash sequence can only be installed with the scheduler's guards
passed: the step that starts a flash has lightning enabled and the faded rain
opacity at or above the 0.15 visibility threshold (and it leaves the opacity
unchanged). -/
theorem updateLightning_start (dt rand : ℚ) (pick : Bool) (s : RainState)
    (hnone : s.flashSeq = none)
    (hres : (updateLightning dt rand pick s).flashSeq ≠ none) :
    s.lightningEnabled = true ∧ 15/100 ≤ s.alpha ∧
    (updateLightning dt rand pick s).alpha = s.alpha := by
  simp only [updateLightning, hnone] at hres ⊢
  by_cases he : s.lightningEnabled = false
  · rw [if_pos he] at hres
    exact absurd hnone hres
  · have he' : s.lightningEnabled = true := by
      cases hbe : s.lightningEnabled
      · exact absurd hbe he
      · rfl
    rw [if_neg he] at hres ⊢
    by_cases ha : s.alpha < 15/100
    · rw [if_pos ha] at hres
      exact absurd hnone hres
    · rw [if_neg ha] at hres ⊢
      refine ⟨he', not_lt.mp ha, ?_⟩
      split_ifs with hn
      · rfl
      · rfl

/-- C9: in every state of the rain layer, an update frame that starts a
lightning flash sequence (no sequence active before, one active after) has
the lightning enable flag on and post-fade rain opacity at least the 0.15
visibility threshold. -/
theorem lightning_start_gated (dt rand : ℚ) (pick : Bool) (s : RainState)
    (hnone : s.flashSeq = none)
    (hstart : (rainStep dt rand pick s).flashSeq ≠ none) :
    s.lightningEnabled = true ∧ 15/100 ≤ (rainStep dt rand pick s).alpha := by
  by_cases hf : s.framesLen = 0
  · rw [rainStep, if_pos hf] at hstart
    exact absurd hnone hstart
  · rw [rainStep, if_neg hf] at hstart ⊢
    have h := updateLightning_start dt rand pick
      { s with alpha := rainFadeAlpha dt s,
               frameT := (rainFrameAdvance dt (rainFadeAlpha dt s) s).1,
               frameIndex := (rainFrameAdvance dt (rainFadeAlpha dt s) s).2 }
      hnone hstart
    exact ⟨h.1, h.2.2 ▸ h.2.1⟩

/-- C9 witness: a raining, lightning-enabled state whose countdown expires on
the next 0.01 s frame starts a flash, with the gating conditions holding. -/
theorem lightning_start_gated_w :
    rainSample.flashSeq = none ∧
    (rainStep (1/100) 20 true rainSample).flashSeq ≠ none ∧
    (rainSample.lightningEnabled = true ∧
     15/100 ≤ (rainStep (1/100) 20 true rainSample).alpha) := by
  have hs : (rainStep (1/100) 20 true rainSample).flashSeq = some flashPattern2 := by
    simp [rainStep, rainSample, updateLightning, startLightningFlash, rainFadeAlpha,
      rainFrameAdvance]
    norm_num
  refine ⟨rfl, by rw [hs]; exact Option.some_ne_none _, ?_⟩
  exact lightning_start_gated (1/100) 20 true rainSample rfl
    (by rw [hs]; exact Option.some_ne_none _)

/-- C10: the three separately implemented derived-rain booleans — in the
scene engine, the room-fx manager and the cat actor — are the same function
of the story state, and that function is the one the claim describes: the
effective `rain` override when it is the boolean true or false, and otherwise
whether the resolved cloud-profile string, trimmed and lowercased, equals
"overcast". -/
theorem rainResolvers_agree (st : StoryState) :
    roomFxResolveRainEnabled st = catResolveRainEnabled st ∧
    sceneRainEnabled st = roomFxResolveRainEnabled st ∧
    roomFxResolveRainEnabled st = specRainEnabled st := by
  refine ⟨rfl, rfl, ?_⟩
  rw [roomFxResolveRainEnabled, specRainEnabled]
  rcases hr : st.rain with _ | _ | b | sv
  · rcases hsr : st.stateRain with _ | _ | b2 | sv2
    · simp
    · simp
    · cases b2 <;> simp
    · simp
  · simp
  · cases b <;> simp
  · simp
